import Mathlib

/-!
Verification of the s3dx-viewer core against its specification.

Shallow embedding of the repository's core modules:
  * `src/utils/bezierEvaluator.ts`   — class `BezierEvaluator`
  * `src/utils/boardcadMeshGenerator.ts` — class `BoardCADMeshGenerator`
  * `src/utils/s3dxParser.ts`        — class `S3DXParser`

JavaScript `number` is modelled as `ℚ` (exact rational arithmetic); integer
loop counters are `ℕ`.  Division by zero follows Lean's `q / 0 = 0`
convention where the source would produce `NaN`; every theorem that depends
on a division carries hypotheses keeping the divisor nonzero, except where a
claim is settled by an input that exercises such a corner (noted inline).
-/

namespace S3DX

/-- `Point3D` record from `src/types/s3dx.ts`. -/
structure Point3D where
  x : ℚ
  y : ℚ
  z : ℚ
  u : ℚ
  color : ℤ
  deriving Repr, DecidableEq, Inhabited

/-- `Polygon3D` record from `src/types/s3dx.ts` (`open` is a Lean keyword,
rendered `open_`). -/
structure Polygon3D where
  nb_of_points : ℤ
  open_ : ℤ
  symmetry : ℤ
  symmetry_center : Point3D
  plan : ℤ
  points : List Point3D
  deriving Repr, DecidableEq, Inhabited

/-- `Bezier3D` record from `src/types/s3dx.ts`. -/
structure Bezier3D where
  name : String
  degree : ℤ
  open_ : ℤ
  symmetry : ℤ
  plan : ℤ
  control_points : Polygon3D
  tangents_1 : Polygon3D
  tangents_2 : Polygon3D
  tangents_m : Polygon3D
  control_type_points : List ℤ
  tangent_type_points : List ℤ
  deriving Repr, DecidableEq, Inhabited

/-- `Couple` record from `src/types/s3dx.ts` (a cross-section). -/
structure Couple where
  dessus : ℤ
  dessous : ℤ
  displayed : ℤ
  bezier : Bezier3D
  deriving Repr, DecidableEq, Inhabited

namespace BezierEvaluator

/-- `BezierEvaluator.evaluateCubicBezier` (bezierEvaluator.ts, lines 27-41). -/
def evaluateCubicBezier (p0 p1 p2 p3 : Point3D) (t : ℚ) : Point3D :=
  let invT := 1 - t
  let t2 := t * t
  let t3 := t2 * t
  let invT2 := invT * invT
  let invT3 := invT2 * invT
  { x := invT3 * p0.x + 3 * invT2 * t * p1.x + 3 * invT * t2 * p2.x + t3 * p3.x
    y := invT3 * p0.y + 3 * invT2 * t * p1.y + 3 * invT * t2 * p2.y + t3 * p3.y
    z := invT3 * p0.z + 3 * invT2 * t * p1.z + 3 * invT * t2 * p2.z + t3 * p3.z
    u := invT3 * p0.u + 3 * invT2 * t * p1.u + 3 * invT * t2 * p2.u + t3 * p3.u
    color := p0.color }

/-- `BezierEvaluator.evaluateQuadraticBezier` (bezierEvaluator.ts, lines 46-59). -/
def evaluateQuadraticBezier (p0 p1 p2 : Point3D) (t : ℚ) : Point3D :=
  let invT := 1 - t
  let invT2 := invT * invT
  let t2 := t * t
  let twoInvTt := 2 * invT * t
  { x := invT2 * p0.x + twoInvTt * p1.x + t2 * p2.x
    y := invT2 * p0.y + twoInvTt * p1.y + t2 * p2.y
    z := invT2 * p0.z + twoInvTt * p1.z + t2 * p2.z
    u := invT2 * p0.u + twoInvTt * p1.u + t2 * p2.u
    color := p0.color }

/-- `BezierEvaluator.evaluateLinear` (bezierEvaluator.ts, lines 64-72). -/
def evaluateLinear (p0 p1 : Point3D) (t : ℚ) : Point3D :=
  { x := p0.x + t * (p1.x - p0.x)
    y := p0.y + t * (p1.y - p0.y)
    z := p0.z + t * (p1.z - p0.z)
    u := p0.u + t * (p1.u - p0.u)
    color := p0.color }

/-- Inner `for (j ...)` loop of `generateBezierPoints` cases 1 and 4
(bezierEvaluator.ts, lines 108-114 and 153-159): emits up to `fuel`
(=`segmentPoints`) points, breaking as soon as `pointIdx >= numPoints`;
`localT = j / (segmentPoints - 1)` when `segmentPoints > 1`, else `0`. -/
def segInner (f : ℚ → Point3D) (segmentPoints numPoints : ℕ) :
    ℕ → ℕ → ℕ → List Point3D
  | 0, _, _ => []
  | fuel + 1, j, pointIdx =>
    if numPoints ≤ pointIdx then []
    else
      let localT : ℚ :=
        if 1 < segmentPoints then (j : ℚ) / ((segmentPoints : ℚ) - 1) else 0
      f localT :: segInner f segmentPoints numPoints fuel (j + 1) (pointIdx + 1)

/-- Outer `for (seg ...)` loop of `generateBezierPoints` cases 1 and 4
(bezierEvaluator.ts, lines 96-115 and 144-160): `segRem` counts segments
still to process (`seg = numControlSegments - segRem`); the last segment
receives `numPoints - pointIdx` samples, the rest `⌊numPoints / k⌋`. -/
def segOuter (f : ℕ → ℚ → Point3D) (numControlSegments numPoints : ℕ) :
    ℕ → ℕ → List Point3D
  | 0, _ => []
  | segRem + 1, pointIdx =>
    let seg := numControlSegments - (segRem + 1)
    let segmentPoints :=
      if segRem = 0 then numPoints - pointIdx
      else numPoints / numControlSegments
    let emitted := segInner (f seg) segmentPoints numPoints segmentPoints 0 pointIdx
    emitted ++ segOuter f numControlSegments numPoints segRem (pointIdx + emitted.length)

/-- Per-segment cubic evaluation of case 1 (bezierEvaluator.ts, lines
103-112): endpoints `cp[seg]`, `cp[seg+1]`, handles `t2[seg]` (tangent out)
and `t1[seg+1]` (tangent in).  Out-of-range access is modelled by `getD`
with a zero point; the guard of case 1 keeps every index in range. -/
def cubicSegEval (cp t1 t2 : List Point3D) (seg : ℕ) (t : ℚ) : Point3D :=
  evaluateCubicBezier (cp.getD seg default) (t2.getD seg default)
    (t1.getD (seg + 1) default) (cp.getD (seg + 1) default) t

/-- Per-segment linear evaluation of case 4 (bezierEvaluator.ts, lines
150-157): endpoints `cp[seg]`, `cp[seg+1]`. -/
def linearSegEval (cp : List Point3D) (seg : ℕ) (t : ℚ) : Point3D :=
  evaluateLinear (cp.getD seg default) (cp.getD (seg + 1) default) t

/-- `BezierEvaluator.generateBezierPoints` (bezierEvaluator.ts, lines
78-166).  The source's local aliases `cp`, `t1`, `t2` (with
`t1.length > 0 ? t1 : []` being the identity on the points list) are
inlined. -/
def generateBezierPoints (bezier : Bezier3D) (numPoints : ℕ) : List Point3D :=
  if bezier.control_points.points.length < 2 then []
  -- Case 1: control points with full tangent data (cubic Bezier)
  else if 2 ≤ bezier.control_points.points.length ∧
      bezier.control_points.points.length ≤ bezier.tangents_1.points.length ∧
      bezier.control_points.points.length ≤ bezier.tangents_2.points.length then
    segOuter
      (cubicSegEval bezier.control_points.points bezier.tangents_1.points
        bezier.tangents_2.points)
      (bezier.control_points.points.length - 1) numPoints
      (bezier.control_points.points.length - 1) 0
  -- Case 2: three control points (quadratic Bezier)
  else if bezier.control_points.points.length = 3 then
    (List.range numPoints).map fun i : ℕ =>
      evaluateQuadraticBezier (bezier.control_points.points.getD 0 default)
        (bezier.control_points.points.getD 1 default)
        (bezier.control_points.points.getD 2 default)
        ((i : ℚ) / ((numPoints : ℚ) - 1))
  -- Case 3: two control points (linear interpolation)
  else if bezier.control_points.points.length = 2 then
    (List.range numPoints).map fun i : ℕ =>
      evaluateLinear (bezier.control_points.points.getD 0 default)
        (bezier.control_points.points.getD 1 default)
        ((i : ℚ) / ((numPoints : ℚ) - 1))
  -- Case 4: more than 3 control points, adjacent linear segments
  else if 3 < bezier.control_points.points.length then
    segOuter (linearSegEval bezier.control_points.points)
      (bezier.control_points.points.length - 1) numPoints
      (bezier.control_points.points.length - 1) 0
  else []

/-- `BezierEvaluator.mirrorCrossSectionPoints` (bezierEvaluator.ts, lines
171-201). -/
def mirrorCrossSectionPoints (halfPoints : List Point3D) : List Point3D :=
  if halfPoints.length = 0 then []
  else
    -- `hasNegative`: any point with y < -0.001 means "already mirrored"
    if halfPoints.any fun pt => pt.y < -(1 / 1000 : ℚ) then halfPoints
    else
      let startIdx : ℕ := if |(halfPoints.headD default).y| < (1 / 1000 : ℚ) then 1 else 0
      let numToMirror := halfPoints.length - startIdx
      halfPoints ++ (List.range numToMirror).map fun i =>
        let srcIdx := halfPoints.length - 1 - i
        let p := halfPoints.getD srcIdx default
        { p with y := -p.y }

/-- Pair-scanning loop of `interpolateZAtX` (bezierEvaluator.ts, lines
210-215): first consecutive pair whose `x` range brackets the query wins. -/
def interpLoop (x : ℚ) : List Point3D → Option ℚ
  | p1 :: p2 :: rest =>
    if p1.x ≤ x ∧ x ≤ p2.x then
      let t := (x - p1.x) / (p2.x - p1.x)
      some (p1.z * (1 - t) + p2.z * t)
    else interpLoop x (p2 :: rest)
  | _ => none

/-- `BezierEvaluator.interpolateZAtX` (bezierEvaluator.ts, lines 206-222). -/
def interpolateZAtX (points : List Point3D) (x : ℚ) : ℚ :=
  if points.length = 0 then 0
  else
    match interpLoop x points with
    | some z => z
    | none =>
      if x < (points.headD default).x then (points.headD default).z
      else (points.getLastD default).z

end BezierEvaluator

/-- `Board` record from `src/types/s3dx.ts`. -/
structure Board where
  version : ℤ
  version_number : String
  name : String
  author : String
  comment : String
  variation : String
  category : String
  category_type : String
  construction : String
  rider_name : String
  rider_weight : ℚ
  length : ℚ
  length_dev : ℚ
  width : ℚ
  thickness : ℚ
  tail_rocker : ℚ
  nose_rocker : ℚ
  volume : ℚ
  surface_proj : ℚ
  volume_tail : ℚ
  volume_nose : ℚ
  surface_proj_tail : ℚ
  surface_proj_nose : ℚ
  otl : Bezier3D
  str_bot : Bezier3D
  str_deck : Bezier3D
  number_of_slices : ℤ
  couples : List Couple
  color : ℤ
  color_bot : ℤ
  color_rail : ℤ
  deriving Repr, DecidableEq, Inhabited

/-- `Lighting` record from `src/types/s3dx.ts`. -/
structure Lighting where
  version : ℚ
  ecl : Point3D
  color : ℤ
  color_spot : ℤ
  intensity : ℚ
  intensity2 : ℚ
  intensity_ambient : ℚ
  intensity_spec : ℚ
  deriving Repr, DecidableEq, Inhabited

/-- `View` record from `src/types/s3dx.ts`. -/
structure View where
  version : ℚ
  wh : ℚ
  ww : ℚ
  wox : ℚ
  woy : ℚ
  uh : ℚ
  uw : ℚ
  uxmin : ℚ
  uymin : ℚ
  cxy : ℚ
  mrgx : ℚ
  mrgy : ℚ
  police : String
  over_sample : ℤ
  grid : ℚ
  deriving Repr, DecidableEq, Inhabited

/-- `Camera` record from `src/types/s3dx.ts`. -/
structure Camera where
  version : ℚ
  alpha : ℚ
  dim_obj : ℚ
  crot : Point3D
  cvis : Point3D
  ccam : Point3D
  oy : Point3D
  ur : Point3D
  view : View
  deriving Repr, DecidableEq, Inhabited

/-- `Scene` record from `src/types/s3dx.ts`. -/
structure Scene where
  version : ℚ
  background_color : ℤ
  lighting : Lighting
  camera : Camera
  reflexion_map : String
  display_sky_box : ℤ
  deriving Repr, DecidableEq, Inhabited

/-- `Shape3DDesign` record from `src/types/s3dx.ts`. -/
structure Shape3DDesign where
  board : Board
  scene : Scene
  deriving Repr, DecidableEq, Inhabited

namespace BoardCADMeshGenerator

open BezierEvaluator

/-- The double value of JavaScript `Math.PI`.  It is used once to build an
angle (`v * 2 * Math.PI`) and once to divide it back out
(`angle / (2 * Math.PI)`), so its exact value cancels. -/
def piApprox : ℚ := 3.141592653589793

/-- Geometry of a generated `THREE.Mesh`: either the fallback
`BoxGeometry(w, h, d)` or a `BufferGeometry` with position/normal/uv/index
buffers. -/
inductive Geometry where
  | box (w h d : ℚ)
  | buffer (vertices normals uvs : List ℚ) (indices : List ℕ)
  deriving Repr, DecidableEq

/-- A generated mesh: geometry plus the Phong material's color (other
material parameters are render-only constants). -/
structure Mesh where
  geometry : Geometry
  materialColor : ℕ
  deriving Repr, DecidableEq

/-- `Math.min(...values)` over a non-empty list (every call site guards
non-emptiness). -/
def jsMinList (l : List ℚ) : ℚ := l.foldl min (l.headD 0)

/-- `Math.max(...values)` over a non-empty list. -/
def jsMaxList (l : List ℚ) : ℚ := l.foldl max (l.headD 0)

/-- Bracket-interpolation loop of `getWidthAtX` (boardcadMeshGenerator.ts,
lines 331-340): first consecutive outline pair with `p1.x ≤ x ≤ p2.x`
yields the interpolated absolute half-width. -/
def widthInterpLoop (x : ℚ) : List Point3D → Option ℚ
  | p1 :: p2 :: rest =>
    if p1.x ≤ x ∧ x ≤ p2.x then
      let t := (x - p1.x) / (p2.x - p1.x)
      some (|p1.y| * (1 - t) + |p2.y| * t)
    else widthInterpLoop x (p2 :: rest)
  | _ => none

/-- `BoardCADMeshGenerator.getWidthAtX` (boardcadMeshGenerator.ts, lines
313-349). -/
def getWidthAtX (board : Board) (x : ℚ) : ℚ :=
  let halfOutline := generateBezierPoints board.otl 200
  if halfOutline.length = 0 then 20
  else
    -- Exact-match scan within 2mm tolerance, tracking (maxY, found)
    let scan := halfOutline.foldl
      (fun (acc : ℚ × Bool) pt =>
        if |pt.x - x| < 2 then (max acc.1 |pt.y|, true) else acc)
      (0, false)
    if scan.2 then scan.1 * 2
    else
      match widthInterpLoop x halfOutline with
      | some maxY => maxY * 2
      | none => 0

/-- `BoardCADMeshGenerator.getBottomAtX` (boardcadMeshGenerator.ts, lines
351-356). -/
def getBottomAtX (board : Board) (x : ℚ) : ℚ :=
  interpolateZAtX (generateBezierPoints board.str_bot 200) x

/-- `BoardCADMeshGenerator.getDeckAtX` (boardcadMeshGenerator.ts, lines
358-367). -/
def getDeckAtX (board : Board) (x : ℚ) : ℚ :=
  if 0 < board.str_deck.control_points.points.length then
    interpolateZAtX (generateBezierPoints board.str_deck 200) x
  else
    getBottomAtX board x + board.thickness

/-- `BoardCADMeshGenerator.getThicknessAtX` (boardcadMeshGenerator.ts,
lines 369-371). -/
def getThicknessAtX (board : Board) (x : ℚ) : ℚ :=
  getDeckAtX board x - getBottomAtX board x

/-- `BoardCADMeshGenerator.generateScaledCrossSection`
(boardcadMeshGenerator.ts, lines 254-296).  The `if (!couple.bezier)` guard
cannot fire: `bezier` is a mandatory field of `Couple`. -/
def generateScaledCrossSection (couple : Couple) (targetWidth targetThickness : ℚ) :
    List Point3D :=
  let halfPoints := generateBezierPoints couple.bezier 50
  let basePoints := mirrorCrossSectionPoints halfPoints
  if basePoints.length = 0 then []
  else
    let minY := jsMinList (basePoints.map (·.y))
    let maxY := jsMaxList (basePoints.map (·.y))
    let minZ := jsMinList (basePoints.map (·.z))
    let maxZ := jsMaxList (basePoints.map (·.z))
    let currentWidth := maxY - minY
    let currentThickness := maxZ - minZ
    let widthScale := if 0 < currentWidth then targetWidth / currentWidth else 1
    let thicknessScale := if 0 < currentThickness then targetThickness / currentThickness else 1
    let centerY := (minY + maxY) * (1 / 2)
    let centerZ := (minZ + maxZ) * (1 / 2)
    basePoints.map fun pt =>
      { x := pt.x
        y := (pt.y - centerY) * widthScale
        z := (pt.z - centerZ) * thicknessScale - targetThickness * (1 / 2)
        u := pt.u
        color := pt.color }

/-- Bracketing-search loop of `getInterpolatedCrossSection`
(boardcadMeshGenerator.ts, lines 190-202): walks the couples in order,
updating `prevIdx` whenever a couple's anchor is `≤ x`, and breaking at the
first couple whose anchor is `≥ x` while `nextIdx` is still `0`. -/
def bracketLoop (x : ℚ) : List Couple → ℕ → ℕ → ℕ → ℕ × ℕ
  | [], _, prevIdx, nextIdx => (prevIdx, nextIdx)
  | c :: rest, i, prevIdx, nextIdx =>
    if 0 < c.bezier.control_points.points.length then
      let csX := (c.bezier.control_points.points.headD default).x
      let prevIdx' := if csX ≤ x then i else prevIdx
      if x ≤ csX ∧ nextIdx = 0 then (prevIdx', i)
      else bracketLoop x rest (i + 1) prevIdx' nextIdx
    else bracketLoop x rest (i + 1) prevIdx nextIdx

/-- `BoardCADMeshGenerator.getInterpolatedCrossSection`
(boardcadMeshGenerator.ts, lines 180-252).  JS `v || fallback` falls back
on `0` as well, which matters for `x2` (`|| board.length`); for `x1` the
fallback is `0`, making it the plain head coordinate.  When exactly one of
the two scaled profiles is empty the source would fault on
`undefined.y`; the model reads a zero point instead (no claim reaches that
corner). -/
def getInterpolatedCrossSection (board : Board) (x : ℚ) : List Point3D :=
  if board.couples.length = 0 then []
  else
    let found := bracketLoop x board.couples 0 0 0
    let prevIdx := found.1
    let nextIdx := if found.2 = 0 then board.couples.length - 1 else found.2
    let cs1 := board.couples.getD prevIdx default
    let cs2 := board.couples.getD nextIdx default
    let x1 : ℚ := match cs1.bezier.control_points.points.head? with
      | some p => p.x
      | none => 0
    let x2 : ℚ := match cs2.bezier.control_points.points.head? with
      | some p => if p.x = 0 then board.length else p.x
      | none => board.length
    let t := if x2 ≠ x1 then (x - x1) / (x2 - x1) else 0
    let targetWidth := getWidthAtX board x
    let targetThickness := getThicknessAtX board x
    let cs1Points := generateScaledCrossSection cs1 targetWidth targetThickness
    let cs2Points := generateScaledCrossSection cs2 targetWidth targetThickness
    let numPoints := max cs1Points.length cs2Points.length
    (List.range numPoints).map fun i =>
      let idx1 := min i (cs1Points.length - 1)
      let idx2 := min i (cs2Points.length - 1)
      let p1 := cs1Points.getD idx1 default
      let p2 := cs2Points.getD idx2 default
      { x := x
        y := p1.y * (1 - t) + p2.y * t
        z := p1.z * (1 - t) + p2.z * t
        u := 0
        color := 0 }

/-- `BoardCADMeshGenerator.getPointOnCrossSection`
(boardcadMeshGenerator.ts, lines 298-311). -/
def getPointOnCrossSection (crossSection : List Point3D) (angle : ℚ) (x : ℚ) :
    Point3D :=
  if crossSection.length = 0 then { x := x, y := 0, z := 0, u := 0, color := 0 }
  else
    let s := angle / (2 * piApprox)
    let idx : ℤ := ⌊s * ((crossSection.length : ℚ) - 1)⌋
    let clampedIdx : ℤ := max 0 (min idx ((crossSection.length : ℤ) - 1))
    crossSection.getD clampedIdx.toNat default

/-- `BoardCADMeshGenerator.generateTriangles` (boardcadMeshGenerator.ts,
lines 373-398): per quad `(i, j)` of the `uSteps × vSteps` grid, two
triangles `(idx0, idx2, idx1)` and `(idx1, idx2, idx3)`, with the
right-hand column indices redirected to column 0 when `j = vSteps - 1`. -/
def generateTriangles (uSteps vSteps : ℕ) : List ℕ :=
  let verticesPerRow := vSteps + 1
  (List.range uSteps).flatMap fun i =>
    (List.range vSteps).flatMap fun j =>
      let idx0 := i * verticesPerRow + j
      let idx1 := if j = vSteps - 1 then i * verticesPerRow
                  else i * verticesPerRow + j + 1
      let idx2 := (i + 1) * verticesPerRow + j
      let idx3 := if j = vSteps - 1 then (i + 1) * verticesPerRow
                  else (i + 1) * verticesPerRow + j + 1
      [idx0, idx2, idx1, idx1, idx2, idx3]

/-- Smoothstep-based density remapping of the longitudinal parameter
(boardcadMeshGenerator.ts, lines 91-101). -/
def smoothstepU (u : ℚ) : ℚ :=
  if u < 1 / 2 then
    let t := u * 2
    1 / 2 * (t * t * (3 - 2 * t))
  else
    let t := (u - 1 / 2) * 2
    let smoothed := t * t * (3 - 2 * t)
    1 / 2 + 1 / 2 * smoothed

/-- One longitudinal row of the S-Linear surface loop
(boardcadMeshGenerator.ts, lines 87-155), returning the row's
`(vertices, normals, uvs)` contributions.  Vertices are pushed as
`(x·0.01, z·0.01, y·0.01)` (unit conversion plus the axis swap). -/
def slinearRow (board : Board) (minX actualLength : ℚ) (uSteps vSteps i : ℕ) :
    List ℚ × List ℚ × List ℚ :=
  let u : ℚ := (i : ℚ) / (uSteps : ℚ)
  let uAdjusted := smoothstepU u
  let x := minX + uAdjusted * actualLength
  let widthAtX := getWidthAtX board x
  if widthAtX ≤ 1 / 10 then
    -- Very small width: collapse the whole row to one centerline point
    let rockerAtX := getBottomAtX board x
    let thicknessAtX := getThicknessAtX board x
    let pz := rockerAtX + thicknessAtX * (1 / 2)
    ((List.range (vSteps + 1)).flatMap fun _ => [x * (1 / 100), pz * (1 / 100), 0],
     (List.range (vSteps + 1)).flatMap fun _ => [0, 0, 1],
     (List.range (vSteps + 1)).flatMap fun j : ℕ => [u, (j : ℚ) / (vSteps : ℚ)])
  else
    let crossSection := getInterpolatedCrossSection board x
    ((List.range (vSteps + 1)).flatMap fun j : ℕ =>
        let v : ℚ := (j : ℚ) / (vSteps : ℚ)
        let angle := v * 2 * piApprox
        let csPoint := getPointOnCrossSection crossSection angle x
        let rockerAtX := getBottomAtX board x
        let thicknessAtX := getThicknessAtX board x
        let pz := csPoint.z + rockerAtX + thicknessAtX * (1 / 2)
        [x * (1 / 100), pz * (1 / 100), csPoint.y * (1 / 100)],
     (List.range (vSteps + 1)).flatMap fun _ => [0, 0, 1],
     (List.range (vSteps + 1)).flatMap fun j : ℕ => [u, (j : ℚ) / (vSteps : ℚ)])

/-- `BoardCADMeshGenerator.generateMeshSLinearInterpolation`
(boardcadMeshGenerator.ts, lines 60-178).  `computeVertexNormals` is the
renderer's averaging pass (spec §4.3 step 8); the emitted buffer carries
the placeholder normals exactly as pushed. -/
def generateMeshSLinearInterpolation (design : Shape3DDesign) : Mesh :=
  let board := design.board
  let uSteps := 40
  let vSteps := 32
  let outlinePoints := generateBezierPoints board.otl 400
  let minX0 : ℚ :=
    if 0 < outlinePoints.length then jsMinList (outlinePoints.map (·.x)) else 0
  let maxX0 : ℚ :=
    if 0 < outlinePoints.length then jsMaxList (outlinePoints.map (·.x)) else board.length
  let extension : ℚ := 2
  let minX := minX0 - extension
  let maxX := maxX0 + extension
  let actualLength := maxX - minX
  let rows := (List.range (uSteps + 1)).map (slinearRow board minX actualLength uSteps vSteps)
  let vertices := rows.flatMap (·.1)
  let normals := rows.flatMap (·.2.1)
  let uvs := rows.flatMap (·.2.2)
  let indices := generateTriangles uSteps vSteps
  { geometry := Geometry.buffer vertices normals uvs indices
    materialColor := 0xffffff }

/-- `BoardCADMeshGenerator.generateMeshSimpleInterpolation`
(boardcadMeshGenerator.ts, lines 401-407): placeholder
`BoxGeometry(2, 0.5, 0.1)` with color `0xff9999`. -/
def generateMeshSimpleInterpolation (_design : Shape3DDesign) : Mesh :=
  { geometry := Geometry.box 2 (1 / 2) (1 / 10)
    materialColor := 0xff9999 }

/-- `BoardCADMeshGenerator.generateMesh` (boardcadMeshGenerator.ts, lines
43-58).  The `throw new Error('Invalid design data: missing board
information')` guard corresponds to a `null`/`undefined` board value,
which the typed model (mandatory `board` field, as in `Shape3DDesign`)
excludes; both reachable branches return a mesh. -/
def generateMesh (design : Shape3DDesign) : Except String Mesh :=
  if 0 < design.board.couples.length then
    .ok (generateMeshSLinearInterpolation design)
  else
    .ok (generateMeshSimpleInterpolation design)

end BoardCADMeshGenerator

/-! ### Format decoder (`src/utils/s3dxParser.ts`)

The browser's `DOMParser.parseFromString` (which never throws; malformed
XML yields a document in which no `Shape3d_design` element is found) is
external.  The decoder is modelled from the element tree up: an `XElem` is
a tag name, its trimmed text content, and its child elements in document
order; a document is its list of top-level elements. -/

/-- A parsed XML element: tag name, trimmed text content, children in
document order. -/
inductive XElem where
  | mk (tag : String) (text : String) (children : List XElem)

/-- Tag name of an element. -/
def XElem.tag : XElem → String
  | .mk t _ _ => t

/-- Trimmed text content of an element (the format stores scalars in leaf
elements). -/
def XElem.text : XElem → String
  | .mk _ s _ => s

/-- Child elements, in document order. -/
def XElem.children : XElem → List XElem
  | .mk _ _ cs => cs

mutual
/-- `element.querySelector(tag)`: first descendant (pre-order, document
order) with the given tag; the element itself is not a candidate. -/
def findDesc (tagName : String) : XElem → Option XElem
  | .mk _ _ children => findInList tagName children
/-- First element with the given tag in a forest, itself or a descendant,
in document order. -/
def findInList (tagName : String) : List XElem → Option XElem
  | [] => none
  | c :: cs =>
    if c.tag = tagName then some c
    else
      match findDesc tagName c with
      | some e => some e
      | none => findInList tagName cs
end

mutual
/-- `element.querySelector('A B')` (descendant combinator) restricted to
the element's subtree: first element tagged `t2`, in document order, with
a strict ancestor tagged `t1`; `inside` records whether such an ancestor
has already been passed. -/
def query2Elem (t1 t2 : String) (inside : Bool) : XElem → Option XElem
  | .mk tag _ children => query2List t1 t2 (inside || tag == t1) children
/-- Forest version of `query2Elem`. -/
def query2List (t1 t2 : String) (inside : Bool) : List XElem → Option XElem
  | [] => none
  | c :: cs =>
    if inside ∧ c.tag = t2 then some c
    else
      match query2Elem t1 t2 inside c with
      | some e => some e
      | none => query2List t1 t2 inside cs
end

mutual
/-- `querySelectorAll('Point3d')` filtered by
`!pointEl.closest('Symmetry_center')` (s3dxParser.ts, lines 55-61):
collect, in document order, every `Point3d` element that has no ancestor
tagged `Symmetry_center`. -/
def collectP3dElem (underSym : Bool) : XElem → List XElem
  | .mk tag _ children => collectP3dList (underSym || tag == "Symmetry_center") children
/-- Forest version of `collectP3dElem`. -/
def collectP3dList (underSym : Bool) : List XElem → List XElem
  | [] => []
  | c :: cs =>
    (if c.tag = "Point3d" ∧ ¬underSym then [c] else []) ++
      collectP3dElem underSym c ++ collectP3dList underSym cs
end

mutual
/-- Number of elements in a subtree (fuel bound for the index-probing
loops). -/
def xsize : XElem → ℕ
  | .mk _ _ children => 1 + xsizeList children
/-- Number of elements in a forest. -/
def xsizeList : List XElem → ℕ
  | [] => 0
  | c :: cs => xsize c + xsizeList cs
end

/-- Digit run to a natural number. -/
def digitsToNat (cs : List Char) : ℕ :=
  cs.foldl (fun a c => a * 10 + (c.toNat - 48)) 0

/-- JavaScript `parseFloat` on trimmed text: optional sign, decimal digits
with optional fraction, optional exponent; `none` models `NaN` (no digit
parsed); trailing garbage is ignored. -/
def jsParseFloat (s : String) : Option ℚ :=
  let cs := s.toList
  let signAndRest : ℚ × List Char :=
    match cs with
    | '-' :: r => (-1, r)
    | '+' :: r => (1, r)
    | _ => (1, cs)
  let ip := signAndRest.2.takeWhile Char.isDigit
  let rest1 := signAndRest.2.dropWhile Char.isDigit
  let fp : List Char :=
    match rest1 with
    | '.' :: r => r.takeWhile Char.isDigit
    | _ => []
  let rest2 : List Char :=
    match rest1 with
    | '.' :: r => r.dropWhile Char.isDigit
    | _ => rest1
  if ip.isEmpty ∧ fp.isEmpty then none
  else
    let mant : ℚ := (digitsToNat ip : ℚ) + (digitsToNat fp : ℚ) / (10 : ℚ) ^ fp.length
    let expVal : ℤ :=
      match rest2 with
      | 'e' :: r | 'E' :: r =>
        let esAndRest : ℤ × List Char :=
          match r with
          | '-' :: rr => (-1, rr)
          | '+' :: rr => (1, rr)
          | _ => (1, r)
        let ed := esAndRest.2.takeWhile Char.isDigit
        if ed.isEmpty then 0 else esAndRest.1 * (digitsToNat ed : ℤ)
      | _ => 0
    some (signAndRest.1 * mant * (10 : ℚ) ^ expVal)

/-- JavaScript `parseInt(s, 10)` on trimmed text: optional sign then
decimal digits; `none` models `NaN`. -/
def jsParseInt (s : String) : Option ℤ :=
  let cs := s.toList
  let signAndRest : ℤ × List Char :=
    match cs with
    | '-' :: r => (-1, r)
    | '+' :: r => (1, r)
    | _ => (1, cs)
  let ds := signAndRest.2.takeWhile Char.isDigit
  if ds.isEmpty then none
  else some (signAndRest.1 * (digitsToNat ds : ℤ))

namespace S3DXParser

/-- `S3DXParser.parseFloat` (s3dxParser.ts, lines 15-18): `NaN` defaults
to `0.0`. -/
def parseFloat (s : String) : ℚ := (jsParseFloat s).getD 0

/-- `S3DXParser.parseInt` (s3dxParser.ts, lines 20-23): `NaN` defaults to
`0`. -/
def parseInt (s : String) : ℤ := (jsParseInt s).getD 0

/-- `S3DXParser.getChildText` (s3dxParser.ts, lines 29-32). -/
def getChildText (parent : XElem) (tagName : String) : String :=
  match findDesc tagName parent with
  | some c => c.text
  | none => ""

/-- `S3DXParser.parsePoint3D` (s3dxParser.ts, lines 34-42). -/
def parsePoint3D (element : XElem) : Point3D :=
  { x := parseFloat (getChildText element "x")
    y := parseFloat (getChildText element "y")
    z := parseFloat (getChildText element "z")
    u := parseFloat (getChildText element "u")
    color := parseInt (getChildText element "color") }

/-- `S3DXParser.parsePolygon3D` (s3dxParser.ts, lines 44-71). -/
def parsePolygon3D (element : XElem) : Polygon3D :=
  let symmetryCenter : Point3D :=
    match query2Elem "Symmetry_center" "Point3d" false element with
    | some el => parsePoint3D el
    | none => { x := 0, y := 0, z := 0, u := 0, color := 0 }
  let points := (collectP3dElem false element).map parsePoint3D
  { nb_of_points := parseInt (getChildText element "Nb_of_points")
    open_ := parseInt (getChildText element "Open")
    symmetry := parseInt (getChildText element "Symmetry")
    symmetry_center := symmetryCenter
    plan := parseInt (getChildText element "Plan")
    points := points }

/-- The `emptyPolygon` literal (s3dxParser.ts, lines 95-102). -/
def emptyPolygon : Polygon3D :=
  { nb_of_points := 0
    open_ := 0
    symmetry := 0
    symmetry_center := { x := 0, y := 0, z := 0, u := 0, color := 0 }
    plan := 0
    points := [] }

/-- Index-probing loop for `Control_type_point_i` / `Tangent_type_point_i`
(s3dxParser.ts, lines 78-93): collect successive indices from 0 until the
first missing tag.  `fuel = xsize element` bounds the loop: each success
consumes a distinct descendant, so the first missing index is reached
before the fuel runs out. -/
def probeIndexed (element : XElem) (pre : String) : ℕ → ℕ → List ℤ
  | 0, _ => []
  | fuel + 1, i =>
    match findDesc (pre ++ toString i) element with
    | none => []
    | some el => parseInt el.text :: probeIndexed element pre fuel (i + 1)

/-- `S3DXParser.parseBezier3D` (s3dxParser.ts, lines 73-125). -/
def parseBezier3D (element : XElem) : Bezier3D :=
  let controlTypePoints := probeIndexed element "Control_type_point_" (xsize element) 0
  let tangentTypePoints := probeIndexed element "Tangent_type_point_" (xsize element) 0
  let polyOrEmpty (outer : String) : Polygon3D :=
    match query2Elem outer "Polygone3d" false element with
    | some p => parsePolygon3D p
    | none => emptyPolygon
  { name := getChildText element "Name"
    degree := parseInt (getChildText element "Degree")
    open_ := parseInt (getChildText element "Open")
    symmetry := parseInt (getChildText element "Symmetry")
    plan := parseInt (getChildText element "Plan")
    control_points := polyOrEmpty "Control_points"
    tangents_1 := polyOrEmpty "Tangents_1"
    tangents_2 := polyOrEmpty "Tangents_2"
    tangents_m := polyOrEmpty "Tangents_m"
    control_type_points := controlTypePoints
    tangent_type_points := tangentTypePoints }

/-- The `emptyBezier` literal (s3dxParser.ts, lines 129-169 and 325-365). -/
def emptyBezier : Bezier3D :=
  { name := ""
    degree := 0
    open_ := 0
    symmetry := 0
    plan := 0
    control_points := emptyPolygon
    tangents_1 := emptyPolygon
    tangents_2 := emptyPolygon
    tangents_m := emptyPolygon
    control_type_points := []
    tangent_type_points := [] }

/-- `S3DXParser.parseCouple` (s3dxParser.ts, lines 127-177). -/
def parseCouple (element : XElem) : Couple :=
  { dessus := parseInt (getChildText element "Dessus")
    dessous := parseInt (getChildText element "Dessous")
    displayed := parseInt (getChildText element "Displayed")
    bezier :=
      match findDesc "Bezier3d" element with
      | some b => parseBezier3D b
      | none => emptyBezier }

/-- `S3DXParser.parseView` (s3dxParser.ts, lines 179-197). -/
def parseView (element : XElem) : View :=
  { version := parseFloat (getChildText element "Version")
    wh := parseFloat (getChildText element "Wh")
    ww := parseFloat (getChildText element "Ww")
    wox := parseFloat (getChildText element "Wox")
    woy := parseFloat (getChildText element "Woy")
    uh := parseFloat (getChildText element "Uh")
    uw := parseFloat (getChildText element "Uw")
    uxmin := parseFloat (getChildText element "Uxmin")
    uymin := parseFloat (getChildText element "Uymin")
    cxy := parseFloat (getChildText element "Cxy")
    mrgx := parseFloat (getChildText element "Mrgx")
    mrgy := parseFloat (getChildText element "Mrgy")
    police := getChildText element "Police"
    over_sample := parseInt (getChildText element "OverSample")
    grid := parseFloat (getChildText element "Grid") }

/-- The `defaultView` literal (s3dxParser.ts, lines 201-217, repeated at
280-296 and 460-476). -/
def defaultView : View :=
  { version := 1.2
    wh := 865
    ww := 1896
    wox := 0
    woy := 0
    uh := 0
    uw := 0
    uxmin := 0
    uymin := 0
    cxy := 0
    mrgx := 0
    mrgy := 0
    police := "MS Sans Serif"
    over_sample := 1
    grid := 10 }

/-- `S3DXParser.parseCamera` (s3dxParser.ts, lines 199-242). -/
def parseCamera (element : XElem) : Camera :=
  let defaultPoint : Point3D := { x := 0, y := 0, z := 0, u := -1, color := 0 }
  let pointOrDefault (outer : String) (d : Point3D) : Point3D :=
    match query2Elem outer "Point3d" false element with
    | some p => parsePoint3D p
    | none => d
  { version := parseFloat (getChildText element "Version")
    alpha := parseFloat (getChildText element "Alpha")
    dim_obj := parseFloat (getChildText element "DimObj")
    crot := pointOrDefault "Crot" defaultPoint
    cvis := pointOrDefault "Cvis" defaultPoint
    ccam := pointOrDefault "Ccam" { x := 0, y := 0, z := -361.95, u := -1, color := 0 }
    oy := pointOrDefault "Oy" { x := 0, y := 1, z := 0, u := -1, color := 0 }
    ur := pointOrDefault "Ur" { x := 0, y := 0, z := 1, u := -1, color := 0 }
    view :=
      match findDesc "View" element with
      | some v => parseView v
      | none => defaultView }

/-- `S3DXParser.parseLighting` (s3dxParser.ts, lines 244-257). -/
def parseLighting (element : XElem) : Lighting :=
  { version := parseFloat (getChildText element "Version")
    color := parseInt (getChildText element "Color")
    color_spot := parseInt (getChildText element "ColorSpot")
    intensity := parseFloat (getChildText element "Intensity")
    intensity2 := parseFloat (getChildText element "Intensity2")
    intensity_ambient := parseFloat (getChildText element "IntensityAmbient")
    intensity_spec := parseFloat (getChildText element "IntensitySpec")
    ecl :=
      match query2Elem "Ecl" "Point3d" false element with
      | some p => parsePoint3D p
      | none => { x := 0, y := -2082.87, z := -2082.87, u := -1, color := 0 } }

/-- The `defaultLighting` literal (s3dxParser.ts, lines 260-269, repeated
at 441-450). -/
def defaultLighting : Lighting :=
  { version := 9
    ecl := { x := 0, y := -2082.87, z := -2082.87, u := -1, color := 0 }
    color := 16777215
    color_spot := 16777215
    intensity := 0.8
    intensity2 := 0.625
    intensity_ambient := 0.475
    intensity_spec := 1 }

/-- The `defaultCamera` literal (s3dxParser.ts, lines 271-297, repeated at
451-477). -/
def defaultCamera : Camera :=
  { version := 1.2
    alpha := 0
    dim_obj := 208.287
    crot := { x := 0, y := 0, z := 0, u := -1, color := 0 }
    cvis := { x := 0, y := 0, z := 0, u := -1, color := 0 }
    ccam := { x := 0, y := 0, z := -361.95, u := -1, color := 0 }
    oy := { x := 0, y := 1, z := 0, u := -1, color := 0 }
    ur := { x := 0, y := 0, z := 1, u := -1, color := 0 }
    view := defaultView }

/-- `S3DXParser.parseScene` (s3dxParser.ts, lines 259-311). -/
def parseScene (element : XElem) : Scene :=
  { version := parseFloat (getChildText element "Version")
    background_color := parseInt (getChildText element "Background_color")
    reflexion_map := getChildText element "ReflexionMap"
    display_sky_box := parseInt (getChildText element "DisplaySkyBox")
    lighting :=
      match findDesc "Lighting" element with
      | some l => parseLighting l
      | none => defaultLighting
    camera :=
      match findDesc "Camera" element with
      | some c => parseCamera c
      | none => defaultCamera }

/-- `S3DXParser.parseBoard` (s3dxParser.ts, lines 313-416).  Cross-sections
are the immediate children whose tag starts with `Couples_`, in document
order. -/
def parseBoard (element : XElem) : Board :=
  let couples :=
    (element.children.filter fun c => c.tag.startsWith "Couples_").map parseCouple
  let bezierOrEmpty (outer : String) : Bezier3D :=
    match query2Elem outer "Bezier3d" false element with
    | some b => parseBezier3D b
    | none => emptyBezier
  { version := parseInt (getChildText element "Version")
    version_number := getChildText element "VersionNumber"
    name := getChildText element "Name"
    author := getChildText element "Author"
    comment := getChildText element "Comment"
    variation := getChildText element "Variation"
    category := getChildText element "Category"
    category_type := getChildText element "CategoryType"
    construction := getChildText element "Construction"
    rider_name := getChildText element "RiderName"
    rider_weight := parseFloat (getChildText element "RiderWeight")
    length := parseFloat (getChildText element "Length")
    length_dev := parseFloat (getChildText element "LengthDev")
    width := parseFloat (getChildText element "Width")
    thickness := parseFloat (getChildText element "Thickness")
    tail_rocker := parseFloat (getChildText element "Tail_rocker")
    nose_rocker := parseFloat (getChildText element "Nose_rocker")
    volume := parseFloat (getChildText element "Volume") / 100
    surface_proj := parseFloat (getChildText element "SurfaceProj")
    volume_tail := parseFloat (getChildText element "VolumeTail") / 100
    volume_nose := parseFloat (getChildText element "VolumeNose") / 100
    surface_proj_tail := parseFloat (getChildText element "SurfaceProjTail")
    surface_proj_nose := parseFloat (getChildText element "SurfaceProjNose")
    otl := bezierOrEmpty "Otl"
    str_bot := bezierOrEmpty "StrBot"
    str_deck := bezierOrEmpty "StrDeck"
    number_of_slices := parseInt (getChildText element "Number_of_slices")
    couples := couples
    color := parseInt (getChildText element "Color")
    color_bot := parseInt (getChildText element "ColorBot")
    color_rail := parseInt (getChildText element "ColorRail") }

/-- The default scene literal of `parseS3DX` for a document with no
`Scene` subtree (s3dxParser.ts, lines 436-478). -/
def defaultSceneLiteral : Scene :=
  { version := 1
    background_color := 0
    reflexion_map := ""
    display_sky_box := 0
    lighting := defaultLighting
    camera := defaultCamera }

/-- Body of the `try` block of `S3DXParser.parseS3DX` (s3dxParser.ts,
lines 419-480): the two `throw new Error(...)` sites become `Except.error`
with the thrown message. -/
def parseS3DXBody (doc : List XElem) : Except String Shape3DDesign :=
  match findInList "Shape3d_design" doc with
  | none => .error "No Shape3d_design element found"
  | some rootElement =>
    match findDesc "Board" rootElement with
    | none => .error "No Board element found"
    | some boardElement =>
      let board := parseBoard boardElement
      let scene :=
        match findDesc "Scene" rootElement with
        | some sceneElement => parseScene sceneElement
        | none => defaultSceneLiteral
      .ok { board := board, scene := scene }

/-- `S3DXParser.parseS3DX` (s3dxParser.ts, lines 418-485): the `catch`
turns every internal error into the `null` return, modelled as `none`. -/
def parseS3DX (doc : List XElem) : Option Shape3DDesign :=
  match parseS3DXBody doc with
  | .ok design => some design
  | .error _ => none

end S3DXParser

/-! ### Spec-side definition for the triangulation refinement (claim about
§4.3 step 7) and concrete example inputs used by witnesses and
counterexamples. -/

/-- Definition written from the spec's words (§4.3 step 7), for comparison
with `generateTriangles`: vertex `(i, j)` sits at buffer offset
`i*(V+1) + j`; each quad `(i, j)` emits two triangles; the circumferential
column to the right of `j` is `(j + 1) % V` (the last column reconnects to
column 0 of the same and next row). -/
def specQuadTriangles (vSteps i j : ℕ) : List ℕ :=
  [i * (vSteps + 1) + j,
   (i + 1) * (vSteps + 1) + j,
   i * (vSteps + 1) + (j + 1) % vSteps,
   i * (vSteps + 1) + (j + 1) % vSteps,
   (i + 1) * (vSteps + 1) + j,
   (i + 1) * (vSteps + 1) + (j + 1) % vSteps]

/-- Spec-side index buffer: the quads of the `U × V` grid in row-major
order, two triangles each. -/
def specTriangles (uSteps vSteps : ℕ) : List ℕ :=
  (List.range uSteps).flatMap fun i =>
    (List.range vSteps).flatMap fun j => specQuadTriangles vSteps i j

/-- Example point constructor (u and color zero). -/
def exPoint (x y z : ℚ) : Point3D :=
  { x := x, y := y, z := z, u := 0, color := 0 }

/-- Example control polygon around a plain points list. -/
def exPolygon (ps : List Point3D) : Polygon3D :=
  { nb_of_points := ps.length
    open_ := 0
    symmetry := 0
    symmetry_center := exPoint 0 0 0
    plan := 0
    points := ps }

/-- Example Bezier curve with given control and tangent points. -/
def exBezier (cps t1 t2 : List Point3D) : Bezier3D :=
  { name := ""
    degree := 0
    open_ := 0
    symmetry := 0
    plan := 0
    control_points := exPolygon cps
    tangents_1 := exPolygon t1
    tangents_2 := exPolygon t2
    tangents_m := exPolygon []
    control_type_points := []
    tangent_type_points := [] }

/-- Fully tangented 3-control-point curve (two cubic segments). -/
def exBezierFullTangents : Bezier3D :=
  exBezier [exPoint 0 0 0, exPoint 1 0 1, exPoint 2 0 0]
    [exPoint 0 0 0, exPoint 1 0 1, exPoint 2 0 0]
    [exPoint 0 0 0, exPoint 1 0 1, exPoint 2 0 0]

/-- Two-control-point curve with no tangent data. -/
def exBezierTwoPoints : Bezier3D :=
  exBezier [exPoint 0 0 0, exPoint 1 2 0] [] []

/-- Single-control-point (degenerate) curve. -/
def exBezierOnePoint : Bezier3D :=
  exBezier [exPoint 1 1 1] [] []

/-- Profile whose first point has a negative but above-threshold
(`> -0.001`) secondary coordinate. -/
def exProfileSmallNegative : List Point3D :=
  [exPoint 0 (-(1 / 2000)) 0, exPoint 0 5 0]

/-- Profile containing a point with secondary coordinate below the
`-0.001` threshold. -/
def exProfileMirrored : List Point3D :=
  [exPoint 0 (-1) 0, exPoint 0 5 0]

/-- Short monotone polyline for interpolation queries. -/
def exPolyline : List Point3D :=
  [exPoint 0 0 10, exPoint 5 0 20]

/-- Design whose board has no cross-sections (all fields default; in
particular `couples = []` and the outline has no control points). -/
def exDesignNoCouples : Shape3DDesign := default

/-- Board whose outline curve has no control points. -/
def exBoardNoOutline : Board := default

/-- Document with the root container element but no board subtree. -/
def exDocNoBoard : List XElem := [XElem.mk "Shape3d_design" "" []]

/-! ## Helper lemmas -/

namespace BezierEvaluator

/-- The inner sample loop emits `min fuel (numPoints - pointIdx)` points:
it runs its `fuel = segmentPoints` iterations unless the global budget
runs out first. -/
theorem segInner_length (f : ℚ → Point3D) (sp np : ℕ) :
    ∀ fuel j p, (segInner f sp np fuel j p).length = min fuel (np - p) := by
  intro fuel
  induction fuel with
  | zero => intro j p; simp [segInner]
  | succ fuel ih =>
    intro j p
    rw [segInner]
    by_cases h : np ≤ p
    · rw [if_pos h]
      simp
      omega
    · rw [if_neg h]
      simp only [List.length_cons, ih]
      omega

/-- Budget accounting of the outer segment loop: entering segment
`k - s` (with `s` segments left) at `pointIdx = (k - s) * ⌊np / k⌋`, the
loop emits exactly the remaining `np - pointIdx` points. -/
theorem segOuter_length (f : ℕ → ℚ → Point3D) (k np : ℕ) :
    ∀ s, 1 ≤ s → s ≤ k → ∀ p, p = (k - s) * (np / k) →
      (segOuter f k np s p).length = np - p := by
  intro s
  induction s with
  | zero => intro h; omega
  | succ m ih =>
    intro _ hsk p hp
    by_cases hm : m = 0
    · subst hm
      simp [segOuter, segInner_length]
    · have hdiv : k * (np / k) ≤ np := by
        rw [mul_comm]; exact Nat.div_mul_le_self np k
      have hstep : p + np / k = (k - m) * (np / k) := by
        rw [hp]
        have hkm : k - m = (k - (m + 1)) + 1 := by omega
        rw [hkm]; ring
      have hbound : p + np / k ≤ np := by
        rw [hstep]
        calc (k - m) * (np / k) ≤ k * (np / k) :=
              Nat.mul_le_mul_right _ (by omega)
          _ ≤ np := hdiv
      have hmin : min (np / k) (np - p) = np / k := by omega
      simp only [segOuter, List.length_append, segInner_length]
      simp only [if_neg hm]
      rw [hmin, ih (by omega) (by omega) (p + np / k) hstep]
      clear hmin hstep hdiv hp ih
      revert hbound
      generalize np / k = q
      intro hb
      omega

/-- A curve with fewer than 2 control points samples to the empty list
(shared by the claims about the degenerate case). -/
theorem generateBezierPoints_short (bezier : Bezier3D) (numPoints : ℕ)
    (h : bezier.control_points.points.length < 2) :
    generateBezierPoints bezier numPoints = [] := by
  rw [generateBezierPoints, if_pos h]

/-- Linear interpolation at `t = 0` is the first endpoint. -/
theorem evaluateLinear_zero (p0 p1 : Point3D) : evaluateLinear p0 p1 0 = p0 := by
  cases p0
  simp only [evaluateLinear, Point3D.mk.injEq]
  refine ⟨by ring, by ring, by ring, by ring, trivial⟩

/-- Linear interpolation at `t = 1` is the second endpoint in every
coordinate; the `color` field inherits the first endpoint's color (colors
are never interpolated). -/
theorem evaluateLinear_one (p0 p1 : Point3D) :
    evaluateLinear p0 p1 1 =
      { x := p1.x, y := p1.y, z := p1.z, u := p1.u, color := p0.color } := by
  simp only [evaluateLinear, Point3D.mk.injEq]
  refine ⟨by ring, by ring, by ring, by ring, trivial⟩

end BezierEvaluator

/-! ## Claims -/

open BezierEvaluator BoardCADMeshGenerator S3DXParser

/-- C2: for every BezierCurve with at least 2 control points whose
tangent-out and tangent-in polygons each have at least as many points as
the control polygon, and every n ≥ 0, `generateBezierPoints` returns
exactly n points: the budget `⌊n/k⌋` per segment over `k = count - 1`
segments, with the final segment absorbing the remainder, neither over-
nor under-counts. -/
theorem c2_full_tangents_sample_count (bezier : Bezier3D) (n : ℕ)
    (hcp : 2 ≤ bezier.control_points.points.length)
    (ht1 : bezier.control_points.points.length ≤ bezier.tangents_1.points.length)
    (ht2 : bezier.control_points.points.length ≤ bezier.tangents_2.points.length) :
    (generateBezierPoints bezier n).length = n := by
  rw [generateBezierPoints, if_neg (by omega), if_pos ⟨hcp, ht1, ht2⟩]
  rw [segOuter_length _ _ _ _ (by omega) le_rfl 0 (by simp)]
  omega

/-- Witness for C2: the fully tangented 3-point example curve sampled at
n = 7 yields exactly 7 points. -/
theorem c2_full_tangents_sample_count_witness :
    2 ≤ exBezierFullTangents.control_points.points.length ∧
      (generateBezierPoints exBezierFullTangents 7).length = 7 :=
  ⟨by decide,
   c2_full_tangents_sample_count exBezierFullTangents 7 (by decide) (by decide)
     (by decide)⟩

/-- C7: for every BezierCurve whose control polygon has fewer than 2
points and every n, sampling returns an empty sequence. -/
theorem c7_degenerate_curve_empty (bezier : Bezier3D) (n : ℕ)
    (h : bezier.control_points.points.length < 2) :
    generateBezierPoints bezier n = [] :=
  generateBezierPoints_short bezier n h

/-- Witness for C7: the one-control-point example curve sampled at n = 9
yields the empty list. -/
theorem c7_degenerate_curve_empty_witness :
    exBezierOnePoint.control_points.points.length < 2 ∧
      generateBezierPoints exBezierOnePoint 9 = [] :=
  ⟨by decide, c7_degenerate_curve_empty exBezierOnePoint 9 (by decide)⟩

/-- C4 counterexample: at n = 1 the two-control-point curve samples to a
single point (the code's unguarded `i / (numPoints - 1)` degenerates), so
the last returned point is not the second control point — the claim's
"for every n" fails. -/
theorem c4_counterexample :
    (generateBezierPoints exBezierTwoPoints 1).length = 1 ∧
      (generateBezierPoints exBezierTwoPoints 1).getLast? ≠
        some (exPoint 1 2 0) := by
  have h : generateBezierPoints exBezierTwoPoints 1 = [exPoint 0 0 0] := by
    norm_num [generateBezierPoints, exBezierTwoPoints, exBezier, exPolygon,
      exPoint, evaluateLinear, List.range_succ, List.range_zero]
  rw [h]
  refine ⟨rfl, ?_⟩
  simp only [List.getLast?_singleton, ne_eq, Option.some.injEq, exPoint,
    Point3D.mk.injEq]
  norm_num

/-- C4 (amended): for every BezierCurve with exactly 2 control points,
tangent sets not covering the control polygon, and every n ≥ 2,
sampling returns n points all lying exactly on the segment between the two
control points, the first equal to the first control point and the last
equal to the second control point in every coordinate (its color field
inherits the first control point's color). -/
theorem c4_two_control_points_linear (bezier : Bezier3D) (n : ℕ) (p0 p1 : Point3D)
    (hcp : bezier.control_points.points = [p0, p1])
    (htan : bezier.tangents_1.points.length < 2 ∨
      bezier.tangents_2.points.length < 2)
    (hn : 2 ≤ n) :
    (generateBezierPoints bezier n).length = n ∧
    (∀ q ∈ generateBezierPoints bezier n,
      ∃ t : ℚ, 0 ≤ t ∧ t ≤ 1 ∧ q = evaluateLinear p0 p1 t) ∧
    (generateBezierPoints bezier n).head? = some p0 ∧
    (generateBezierPoints bezier n).getLast? =
      some { x := p1.x, y := p1.y, z := p1.z, u := p1.u, color := p0.color } := by
  have hlen : bezier.control_points.points.length = 2 := by rw [hcp]; rfl
  have hbranch : generateBezierPoints bezier n =
      (List.range n).map fun i : ℕ =>
        evaluateLinear p0 p1 ((i : ℚ) / ((n : ℚ) - 1)) := by
    rw [generateBezierPoints, if_neg (by omega),
      if_neg (by rintro ⟨-, h1, h2⟩; rcases htan with h | h <;> omega),
      if_neg (by omega), if_pos hlen, hcp]
    simp only [List.getD_cons_zero, List.getD_cons_succ]
  have hn1 : (0 : ℚ) < (n : ℚ) - 1 := by
    have h2 : (2 : ℚ) ≤ (n : ℚ) := by exact_mod_cast hn
    linarith
  refine ⟨by rw [hbranch]; simp, ?_, ?_, ?_⟩
  · intro q hq
    rw [hbranch] at hq
    obtain ⟨i, hi, rfl⟩ := List.mem_map.mp hq
    have hin : i < n := List.mem_range.mp hi
    refine ⟨(i : ℚ) / ((n : ℚ) - 1), ?_, ?_, rfl⟩
    · exact div_nonneg (by positivity) (le_of_lt hn1)
    · rw [div_le_one hn1]
      have hcast : (i : ℚ) + 1 ≤ (n : ℚ) := by exact_mod_cast hin
      linarith
  · obtain ⟨m, rfl⟩ : ∃ m, n = m + 2 := ⟨n - 2, by omega⟩
    rw [hbranch, List.range_succ_eq_map]
    simp only [List.map_cons, List.head?_cons]
    rw [Nat.cast_zero, zero_div, evaluateLinear_zero]
  · obtain ⟨m, rfl⟩ : ∃ m, n = m + 2 := ⟨n - 2, by omega⟩
    rw [hbranch, List.range_succ, List.map_append]
    simp only [List.map_cons, List.map_nil]
    rw [List.getLast?_concat]
    have hdiv : ((m + 1 : ℕ) : ℚ) / (((m + 2 : ℕ) : ℚ) - 1) = 1 := by
      push_cast
      rw [show ((m : ℚ) + 2) - 1 = (m : ℚ) + 1 by ring]
      exact div_self (by positivity)
    rw [hdiv, evaluateLinear_one]

/-- Witness for C4: the two-control-point example curve sampled at n = 3
gives 3 points whose first is the first control point. -/
theorem c4_two_control_points_linear_witness :
    (generateBezierPoints exBezierTwoPoints 3).length = 3 ∧
      (generateBezierPoints exBezierTwoPoints 3).head? = some (exPoint 0 0 0) :=
  have h := c4_two_control_points_linear exBezierTwoPoints 3 (exPoint 0 0 0)
    (exPoint 1 2 0) rfl (Or.inl (by decide)) (by decide)
  ⟨h.1, h.2.2.1⟩

/-- C5 counterexample: the profile `[(y = -1/2000), (y = 5)]` contains a
point with negative secondary coordinate, yet `mirrorCrossSectionPoints`
changes it (the code's already-mirrored test uses the threshold
`y < -0.001`, not mere negativity). -/
theorem c5_counterexample :
    (∃ p ∈ exProfileSmallNegative, p.y < 0) ∧
      mirrorCrossSectionPoints exProfileSmallNegative ≠ exProfileSmallNegative := by
  have h : mirrorCrossSectionPoints exProfileSmallNegative =
      [exPoint 0 (-(1 / 2000)) 0, exPoint 0 5 0, exPoint 0 (-5) 0] := by
    norm_num [mirrorCrossSectionPoints, exProfileSmallNegative, exPoint,
      List.range_succ, List.range_zero, abs]
  constructor
  · exact ⟨exPoint 0 (-(1 / 2000)) 0, by simp [exProfileSmallNegative],
      by norm_num [exPoint]⟩
  · rw [h]
    simp [exProfileSmallNegative]

/-- C5 (amended): for every point sequence containing at least one point
with secondary coordinate below the `-0.001` threshold, the mirror
operation returns its input unchanged, hence applying it twice equals
applying it once. -/
theorem c5_mirror_idempotent_below_threshold (halfPoints : List Point3D)
    (h : ∃ p ∈ halfPoints, p.y < -(1 / 1000 : ℚ)) :
    mirrorCrossSectionPoints halfPoints = halfPoints ∧
    mirrorCrossSectionPoints (mirrorCrossSectionPoints halfPoints) =
      mirrorCrossSectionPoints halfPoints := by
  obtain ⟨p, hp, hy⟩ := h
  have hne : ¬halfPoints.length = 0 := by
    cases halfPoints with
    | nil => simp at hp
    | cons a l => simp
  have hany : (halfPoints.any fun pt => pt.y < -(1 / 1000 : ℚ)) = true := by
    rw [List.any_eq_true]
    exact ⟨p, hp, by simpa using hy⟩
  have h1 : mirrorCrossSectionPoints halfPoints = halfPoints := by
    rw [mirrorCrossSectionPoints, if_neg hne, if_pos hany]
  exact ⟨h1, by rw [h1, h1]⟩

/-- Witness for C5: a profile with a point at y = -1 is returned
unchanged. -/
theorem c5_mirror_idempotent_below_threshold_witness :
    mirrorCrossSectionPoints exProfileMirrored = exProfileMirrored :=
  (c5_mirror_idempotent_below_threshold exProfileMirrored
    ⟨exPoint 0 (-1) 0, by simp [exProfileMirrored], by norm_num [exPoint]⟩).1

/-- The bracket-scanning loop finds nothing when the query lies strictly
below every sample's x. -/
theorem interpLoop_none_below (x : ℚ) :
    ∀ ps : List Point3D, (∀ p ∈ ps, x < p.x) → interpLoop x ps = none
  | [], _ => rfl
  | [_], _ => rfl
  | p1 :: p2 :: rest, h => by
    have h1 : x < p1.x := h p1 (by simp)
    rw [interpLoop, if_neg (by rintro ⟨hc, -⟩; linarith)]
    exact interpLoop_none_below x (p2 :: rest)
      fun p hp => h p (List.mem_cons_of_mem p1 hp)

/-- The bracket-scanning loop finds nothing when the query lies strictly
above every sample's x. -/
theorem interpLoop_none_above (x : ℚ) :
    ∀ ps : List Point3D, (∀ p ∈ ps, p.x < x) → interpLoop x ps = none
  | [], _ => rfl
  | [_], _ => rfl
  | p1 :: p2 :: rest, h => by
    have h2 : p2.x < x := h p2 (by simp)
    rw [interpLoop, if_neg (by rintro ⟨-, hc⟩; linarith)]
    exact interpLoop_none_above x (p2 :: rest)
      fun p hp => h p (List.mem_cons_of_mem p1 hp)

/-- In an x-monotone polyline, the head's x is a lower bound. -/
theorem chain_head_le (d : Point3D) :
    ∀ ps : List Point3D, List.Chain' (fun a b => a.x ≤ b.x) ps →
      ∀ p ∈ ps, (ps.headD d).x ≤ p.x
  | [], _, p, hp => by simp at hp
  | [q], _, p, hp => by
    simp only [List.mem_singleton] at hp
    subst hp
    simp
  | q1 :: q2 :: tl, hc, p, hp => by
    have h12 : q1.x ≤ q2.x := (List.chain'_cons.mp hc).1
    have htl : List.Chain' (fun a b => a.x ≤ b.x) (q2 :: tl) :=
      (List.chain'_cons.mp hc).2
    rcases List.mem_cons.mp hp with rfl | hp2
    · simp
    · have hrec := chain_head_le d (q2 :: tl) htl p hp2
      simp only [List.headD_cons] at hrec ⊢
      exact le_trans h12 hrec

/-- In an x-monotone polyline, the last element's x is an upper bound. -/
theorem chain_le_last :
    ∀ (ps : List Point3D) (d : Point3D),
      List.Chain' (fun a b => a.x ≤ b.x) ps →
      ∀ p ∈ ps, p.x ≤ (ps.getLastD d).x
  | [], _, _, p, hp => by simp at hp
  | [q], d, _, p, hp => by
    simp only [List.mem_singleton] at hp
    subst hp
    simp
  | q1 :: q2 :: tl, d, hc, p, hp => by
    have h12 : q1.x ≤ q2.x := (List.chain'_cons.mp hc).1
    have htl : List.Chain' (fun a b => a.x ≤ b.x) (q2 :: tl) :=
      (List.chain'_cons.mp hc).2
    have hlast : (q1 :: q2 :: tl).getLastD d = (q2 :: tl).getLastD q1 := rfl
    rw [hlast]
    rcases List.mem_cons.mp hp with rfl | hp2
    · have h2 := chain_le_last (q2 :: tl) p htl q2 (by simp)
      exact le_trans h12 h2
    · exact chain_le_last (q2 :: tl) q1 htl p hp2

/-- C6: on a polyline monotonically increasing in x, `interpolateZAtX`
clamps out-of-range queries — below the first sample's x it returns the
first sample's z, above the last sample's x it returns the last sample's
z — and returns 0 for the empty sequence. -/
theorem c6_interpolateZAtX_clamps (points : List Point3D) (x : ℚ)
    (hne : points ≠ [])
    (hmono : List.Chain' (fun a b => a.x ≤ b.x) points) :
    ((x < (points.headD default).x →
        interpolateZAtX points x = (points.headD default).z) ∧
      ((points.getLastD default).x < x →
        interpolateZAtX points x = (points.getLastD default).z)) ∧
    ∀ q : ℚ, interpolateZAtX [] q = 0 := by
  have hlen0 : ¬points.length = 0 := by
    rw [List.length_eq_zero]
    exact hne
  refine ⟨⟨?_, ?_⟩, fun q => rfl⟩
  · intro hx
    have hall : ∀ p ∈ points, x < p.x := fun p hp =>
      lt_of_lt_of_le hx (chain_head_le default points hmono p hp)
    have hnone := interpLoop_none_below x points hall
    rw [interpolateZAtX, if_neg hlen0]
    simp only [hnone]
    rw [if_pos hx]
  · intro hx
    have hhead : points.headD default ∈ points := by
      cases points with
      | nil => exact absurd rfl hne
      | cons a l => simp
    have hall : ∀ p ∈ points, p.x < x := fun p hp =>
      lt_of_le_of_lt (chain_le_last points default hmono p hp) hx
    have hnone := interpLoop_none_above x points hall
    have hnotlt : ¬x < (points.headD default).x := by
      have := hall _ hhead
      linarith
    rw [interpolateZAtX, if_neg hlen0]
    simp only [hnone]
    rw [if_neg hnotlt]

/-- Witness for C6: on the example polyline (x from 0 to 5, z from 10 to
20), querying x = -3 returns 10 and querying x = 8 returns 20. -/
theorem c6_interpolateZAtX_clamps_witness :
    interpolateZAtX exPolyline (-3) = 10 ∧ interpolateZAtX exPolyline 8 = 20 := by
  have hne : exPolyline ≠ [] := by simp [exPolyline]
  have hmono : List.Chain' (fun a b => a.x ≤ b.x) exPolyline := by
    norm_num [exPolyline, exPoint, List.chain'_cons]
  have h1 := c6_interpolateZAtX_clamps exPolyline (-3) hne hmono
  have h2 := c6_interpolateZAtX_clamps exPolyline 8 hne hmono
  constructor
  · have := h1.1.1 (by norm_num [exPolyline, exPoint])
    simpa [exPolyline, exPoint] using this
  · have := h2.1.2 (by norm_num [exPolyline, exPoint])
    simpa [exPolyline, exPoint] using this

/-- Pointwise-equal functions give equal `flatMap`s. -/
theorem flatMap_congr_fun {α β : Type} (l : List α) (f g : α → List β)
    (h : ∀ a ∈ l, f a = g a) : l.flatMap f = l.flatMap g := by
  induction l with
  | nil => rfl
  | cons a t ih =>
    rw [List.flatMap_cons, List.flatMap_cons, h a (List.mem_cons_self a t),
      ih fun b hb => h b (List.mem_cons_of_mem a hb)]

/-- C8: the emitted index buffer triangulates the U × V grid with exactly
two triangles per quad (2·U·V triangles, 6·U·V indices), vertex (i, j)
sitting at buffer offset i·(V+1) + j, and the quad at the last
circumferential column reconnecting to column 0 of the same and next row
(the code equals the spec-side `specTriangles`). -/
theorem c8_generateTriangles_grid (uSteps vSteps : ℕ) :
    generateTriangles uSteps vSteps = specTriangles uSteps vSteps ∧
    (generateTriangles uSteps vSteps).length = 6 * uSteps * vSteps := by
  have hmain : generateTriangles uSteps vSteps = specTriangles uSteps vSteps := by
    unfold generateTriangles specTriangles
    refine flatMap_congr_fun _ _ _ fun i _ => ?_
    refine flatMap_congr_fun _ _ _ fun j hj => ?_
    have hjv : j < vSteps := List.mem_range.mp hj
    unfold specQuadTriangles
    by_cases hlast : j = vSteps - 1
    · subst hlast
      have hv : (vSteps - 1 + 1) % vSteps = 0 := by
        have heq : vSteps - 1 + 1 = vSteps := by omega
        rw [heq, Nat.mod_self]
      rw [if_pos rfl, if_pos rfl, hv]
      simp
    · have hjv1 : j + 1 < vSteps := by omega
      rw [if_neg hlast, if_neg hlast, Nat.mod_eq_of_lt hjv1]
      simp [Nat.add_assoc]
  refine ⟨hmain, ?_⟩
  rw [hmain]
  unfold specTriangles
  rw [List.length_flatMap]
  simp only [Function.comp_def]
  have h1 : ((List.range uSteps).map fun i =>
      ((List.range vSteps).flatMap fun j => specQuadTriangles vSteps i j).length) =
      (List.range uSteps).map fun _ => 6 * vSteps := by
    refine List.map_congr_left fun i _ => ?_
    rw [List.length_flatMap]
    simp only [Function.comp_def]
    have h2 : ((List.range vSteps).map fun j =>
        (specQuadTriangles vSteps i j).length) =
        (List.range vSteps).map fun _ => 6 :=
      List.map_congr_left fun j _ => rfl
    rw [h2, List.map_const', List.sum_replicate, List.length_range,
      smul_eq_mul, mul_comm]
  rw [h1, List.map_const', List.sum_replicate, List.length_range, smul_eq_mul]
  ring

/-- C9: when the outline curve has fewer than 2 control points its sampled
polyline is empty, and `getWidthAtX` returns the constant default 20 for
every queried x — not the 0 of the beyond-range case. -/
theorem c9_empty_outline_default_width (board : Board) (x : ℚ)
    (h : board.otl.control_points.points.length < 2) :
    getWidthAtX board x = 20 := by
  have hnil : generateBezierPoints board.otl 200 = [] :=
    generateBezierPoints_short board.otl 200 h
  simp [getWidthAtX, hnil]

/-- Witness for C9: the all-default board (outline with no control points)
reports width 20 at x = 5. -/
theorem c9_empty_outline_default_width_witness :
    exBoardNoOutline.otl.control_points.points.length < 2 ∧
      getWidthAtX exBoardNoOutline 5 = 20 :=
  ⟨by decide, c9_empty_outline_default_width exBoardNoOutline 5 (by decide)⟩

/-- C1 counterexample: a decoded design whose board has zero
cross-sections makes `generateMesh` return the simple-interpolation
placeholder box mesh — it does not fail with an error. -/
theorem c1_counterexample :
    generateMesh exDesignNoCouples =
      Except.ok { geometry := Geometry.box 2 (1 / 2) (1 / 10)
                  materialColor := 0xff9999 } := rfl

/-- C1 (amended): for every design whose board has zero cross-sections,
`generateMesh` does not fail: it takes the simple-interpolation fallback
and returns the placeholder box mesh (`BoxGeometry(2, 0.5, 0.1)`, color
`0xff9999`). -/
theorem c1_no_couples_placeholder_box (design : Shape3DDesign)
    (h : design.board.couples = []) :
    generateMesh design = Except.ok (generateMeshSimpleInterpolation design) ∧
    generateMeshSimpleInterpolation design =
      { geometry := Geometry.box 2 (1 / 2) (1 / 10)
        materialColor := 0xff9999 } := by
  constructor
  · rw [generateMesh, if_neg (by simp [h])]
  · rfl

/-- Witness for C1 (amended): the default design has no couples and gets
the fallback mesh. -/
theorem c1_no_couples_placeholder_box_witness :
    exDesignNoCouples.board.couples = [] ∧
      generateMesh exDesignNoCouples =
        Except.ok (generateMeshSimpleInterpolation exDesignNoCouples) :=
  ⟨rfl, (c1_no_couples_placeholder_box exDesignNoCouples rfl).1⟩

/-- C3: for every document whose root container element is present but
whose board subtree is absent, the decoder body raises the format error
("No Board element found") and `parseS3DX` produces no Design. -/
theorem c3_missing_board_fails (doc : List XElem) (rootElement : XElem)
    (hroot : findInList "Shape3d_design" doc = some rootElement)
    (hboard : findDesc "Board" rootElement = none) :
    parseS3DXBody doc = Except.error "No Board element found" ∧
    parseS3DX doc = none := by
  have hbody : parseS3DXBody doc = Except.error "No Board element found" := by
    simp only [parseS3DXBody, hroot, hboard]
  exact ⟨hbody, by simp only [parseS3DX, hbody]⟩

/-- Witness for C3: a document holding only an empty root container fails
with the board-missing error and decodes to nothing. -/
theorem c3_missing_board_fails_witness :
    parseS3DXBody exDocNoBoard = Except.error "No Board element found" ∧
      parseS3DX exDocNoBoard = none :=
  c3_missing_board_fails exDocNoBoard (XElem.mk "Shape3d_design" "" []) rfl rfl

/-- C10: `parseS3DX` is total and signals every internal failure solely by
its `none` (null) result: it returns `none` exactly when the root
container element is missing or the board subtree under it is missing, and
a Design otherwise. -/
theorem c10_null_iff_missing_mandatory (doc : List XElem) :
    parseS3DX doc = none ↔
      (findInList "Shape3d_design" doc = none ∨
        ∃ rootElement, findInList "Shape3d_design" doc = some rootElement ∧
          findDesc "Board" rootElement = none) := by
  unfold parseS3DX parseS3DXBody
  cases hr : findInList "Shape3d_design" doc with
  | none => simp
  | some root =>
    cases hb : findDesc "Board" root with
    | none => simp [hb]
    | some b => simp [hb]

end S3DX
